import Mathlib

/-!
Verification of the iPhoenix username prober (`src/modules/username_eye.py`).

The development shallowly embeds the `UsernameEye` class: the platform
registry, the URL construction (`urllib.parse.quote` plus `str.format`),
the response classifier `_analyze_response`, the per-platform worker
`_check_single_platform`, and the orchestrating `analyze` method.  The
network is modelled as a function from (platform, url) to a fetch outcome,
and the thread pool's completion order as an arbitrary permutation of the
registry handed to `analyze`.
-/

set_option maxRecDepth 20000

namespace IPhoenix

/-! ### String helpers modelling Python primitives -/

/-- Whether the first character list starts the second. -/
def isPrefixList : List Char → List Char → Bool
  | [], _ => true
  | _ :: _, [] => false
  | a :: as, b :: bs => a == b && isPrefixList as bs

/-- Python's substring test `pat in hay`, on explicit character lists. -/
def isSubList : List Char → List Char → Bool
  | pat, [] => pat.isEmpty
  | pat, c :: rest => isPrefixList pat (c :: rest) || isSubList pat rest

/-- Python's `pat in hay` on strings. -/
def strContains (hay pat : String) : Bool := isSubList pat.data hay.data

/-- Python's `str.lower()` (ASCII case folding, which is all the code relies on). -/
def strToLower (s : String) : String := String.mk (s.data.map Char.toLower)

/-! ### `urllib.parse.quote` -/

/-- Upper-case hexadecimal digit, as `quote` emits (`%20`, `%2F`, ...). -/
def hexDigit (n : Nat) : Char :=
  match n with
  | 0 => '0' | 1 => '1' | 2 => '2' | 3 => '3' | 4 => '4'
  | 5 => '5' | 6 => '6' | 7 => '7' | 8 => '8' | 9 => '9'
  | 10 => 'A' | 11 => 'B' | 12 => 'C' | 13 => 'D' | 14 => 'E' | 15 => 'F'
  | _ => '0'

/-- The bytes `quote` leaves unescaped: ALPHA, DIGIT, `_ . - ~` and the
default safe character `/`. -/
def isSafeByte (b : Nat) : Bool :=
  (65 ≤ b && b ≤ 90) || (97 ≤ b && b ≤ 122) || (48 ≤ b && b ≤ 57) ||
  b == 95 || b == 46 || b == 45 || b == 126 || b == 47

/-- Percent-encoding of a single byte. -/
def quoteByte (b : Nat) : List Char :=
  if isSafeByte b then [Char.ofNat b]
  else ['%', hexDigit (b / 16 % 16), hexDigit (b % 16)]

/-- UTF-8 encoding of one character, as Python's `str.encode("utf-8")`
produces before byte-wise quoting. -/
def utf8Bytes (c : Char) : List Nat :=
  let n := c.toNat
  if n < 128 then [n]
  else if n < 2048 then [192 + n / 64, 128 + n % 64]
  else if n < 65536 then [224 + n / 4096, 128 + n / 64 % 64, 128 + n % 64]
  else [240 + n / 262144, 128 + n / 4096 % 64, 128 + n / 64 % 64, 128 + n % 64]

/-- Quote a whole byte sequence. -/
def quoteChars : List Nat → List Char
  | [] => []
  | b :: bs => quoteByte b ++ quoteChars bs

/-- `urllib.parse.quote(s)` with the default `safe="/"`. -/
def quote (s : String) : String :=
  String.mk (quoteChars (s.data.flatMap utf8Bytes))

/-! ### `str.format` with the single `{username}` slot -/

/-- Replace every occurrence of `pat` (left to right, non-overlapping) by
`rep`; `fuel` bounds the scan and is instantiated with the input length. -/
def replaceAllAux (pat rep : List Char) : Nat → List Char → List Char
  | _, [] => []
  | 0, s => s
  | fuel + 1, c :: rest =>
    if isPrefixList pat (c :: rest) && !pat.isEmpty then
      rep ++ replaceAllAux pat rep fuel ((c :: rest).drop pat.length)
    else
      c :: replaceAllAux pat rep fuel rest

/-- Python's `template.format(username=arg)` for the registry's templates,
which contain the single field `{username}`. -/
def pyFormat (template arg : String) : String :=
  String.mk (replaceAllAux (String.data "{username}") arg.data template.data.length template.data)

/-! ### The `UsernameEye` data -/

/-- `self.timeout = 10` (seconds) from `UsernameEye.__init__`. -/
def timeout : Nat := 10

/-- `max_workers=10` of the thread pool in `UsernameEye.analyze`. -/
def max_workers : Nat := 10

/-- The platform registry from `UsernameEye._get_platforms`. -/
def platforms : List (String × String) :=
  [("GitHub", "https://github.com/{username}"),
   ("Twitter", "https://twitter.com/{username}"),
   ("Instagram", "https://instagram.com/{username}"),
   ("Reddit", "https://reddit.com/user/{username}"),
   ("YouTube", "https://youtube.com/@{username}"),
   ("TikTok", "https://tiktok.com/@{username}"),
   ("Twitch", "https://twitch.tv/{username}"),
   ("GitLab", "https://gitlab.com/{username}"),
   ("Keybase", "https://keybase.io/{username}"),
   ("Dev.to", "https://dev.to/{username}"),
   ("Medium", "https://medium.com/@{username}"),
   ("Pinterest", "https://pinterest.com/{username}"),
   ("Flickr", "https://flickr.com/people/{username}"),
   ("Steam", "https://steamcommunity.com/id/{username}"),
   ("Spotify", "https://open.spotify.com/user/{username}"),
   ("Telegram", "https://t.me/{username}"),
   ("Wikipedia", "https://en.wikipedia.org/wiki/User:{username}"),
   ("Bitbucket", "https://bitbucket.org/{username}"),
   ("HackerNews", "https://news.ycombinator.com/user?id={username}"),
   ("Pastebin", "https://pastebin.com/u/{username}"),
   ("Replit", "https://replit.com/@{username}")]

/-- The observable parts of a `requests` response used by the classifier. -/
structure HttpResponse where
  status_code : Nat
  url : String
  text : String
deriving DecidableEq

/-- Outcome of one HTTP fetch: a response (with its elapsed time), or one
of the exception classes caught in `_check_single_platform`. -/
inductive FetchOutcome where
  | ok (response : HttpResponse) (elapsed_ms : Nat)
  | timedOut
  | connectionError
  | otherError (msg : String)

/-- `login_indicators` from `_analyze_response`. -/
def login_indicators : List String := ["/login", "signin", "auth", "join", "register"]

/-- `not_found_indicators` from `_analyze_response`. -/
def not_found_indicators : List String :=
  ["page not found", "doesn\x27t exist", "not found", "couldn\x27t find",
   "does not exist", "no such user", "user not found"]

/-- `UsernameEye._analyze_response`: the ordered heuristic chain mapping a
response to a status string. -/
def analyzeResponse (platform : String) (response : HttpResponse) : String :=
  if response.status_code = 404 then "not_found"
  else
    let final_url := strToLower response.url
    if login_indicators.any (fun indicator => strContains final_url indicator) then "not_found"
    else
      let content_lower := strToLower response.text
      if not_found_indicators.any (fun indicator => strContains content_lower indicator) then
        "not_found"
      else if platform = "GitHub" ∧ response.status_code = 200 ∧
          (strContains response.text "\"is_verified\":true" ∨
           strContains response.text "\"login\":\"") then "found"
      else if platform = "Twitter" ∧ response.status_code = 200 ∧
          strContains response.text "data-user-id=" then "found"
      else if response.status_code = 200 then "found"
      else "unknown"

/-- `UsernameEye._check_single_platform`: build the quoted URL, fetch it
(the network is the function `net`), and convert the outcome to a status
string and elapsed time; every exception class becomes a status. -/
def checkSinglePlatform (platform url_template username : String)
    (net : String → String → FetchOutcome) : String × Nat :=
  let url := pyFormat url_template (quote username)
  match net platform url with
  | .ok response elapsed_ms => (analyzeResponse platform response, elapsed_ms)
  | .timedOut => ("timeout", 0)
  | .connectionError => ("connection_error", 0)
  | .otherError msg => ("error: " ++ msg, 0)

/-- One value of the `platforms_checked` dict in `analyze`. -/
structure CheckedEntry where
  status : String
  response_time_ms : Nat
  url : String
deriving DecidableEq

/-- Python dict lookup on an association list (keys are unique in every
dict the code builds). -/
def dictGet {β : Type} (k : String) : List (String × β) → Option β
  | [] => none
  | (k2, v) :: rest => if k2 = k then some v else dictGet k rest

/-- The entry `analyze` records for one completed future: the status and
elapsed time from `_check_single_platform`, and a display URL built from
the raw (unquoted) username. -/
def entryFor (username : String) (net : String → String → FetchOutcome)
    (pu : String × String) : String × CheckedEntry :=
  let r := checkSinglePlatform pu.1 pu.2 username net
  (pu.1, { status := r.1, response_time_ms := r.2, url := pyFormat pu.2 username })

/-- The initial `results["summary"]` dict. -/
def initSummary : List (String × Nat) := [("found", 0), ("not_found", 0), ("errors", 0)]

/-- `summary[key] += 1`. -/
def bumpKey (k : String) : List (String × Nat) → List (String × Nat)
  | [] => []
  | (k2, v) :: rest => if k2 = k then (k2, v + 1) :: rest else (k2, v) :: bumpKey k rest

/-- Which summary counter a status increments (the if/elif/else of the
`as_completed` loop). -/
def summaryKey (status : String) : String :=
  if status = "found" then "found"
  else if status = "not_found" then "not_found"
  else "errors"

/-- The final re-sort of `platforms_checked`: for each status in the fixed
list, append the entries carrying exactly that status. -/
def sortedPlatforms (l : List (String × CheckedEntry)) : List (String × CheckedEntry) :=
  ["found", "not_found", "error"].foldl
    (fun acc st => acc ++ l.filter (fun pe => pe.2.status == st)) []

/-- The `results` dict returned by `analyze`. -/
structure AnalyzeResults where
  username : String
  checks_performed : Nat
  platforms_checked : List (String × CheckedEntry)
  summary : List (String × Nat)
  warnings : List String
deriving DecidableEq

/-- The static `results["warnings"]` list. -/
def warningsList : List String :=
  ["Presence does not imply ownership",
   "Accounts may be impersonations",
   "Always verify through official channels"]

/-- `UsernameEye.analyze`: one task per registry platform, results
collected in completion order (`arrival`, a permutation of the registry),
summary counters bumped per outcome, and `platforms_checked` re-sorted by
status at the end. -/
def analyze (username : String) (net : String → String → FetchOutcome)
    (arrival : List (String × String)) : AnalyzeResults :=
  let checked := arrival.map (entryFor username net)
  { username := username
    checks_performed := platforms.length
    platforms_checked := sortedPlatforms checked
    summary := checked.foldl (fun s e => bumpKey (summaryKey e.2.status) s) initSummary
    warnings := warningsList }

/-- Status string of the task for one registry entry. -/
def statusOf (username : String) (net : String → String → FetchOutcome)
    (pu : String × String) : String :=
  (checkSinglePlatform pu.1 pu.2 username net).1

/-! ### Status category predicates (the three summary branches) -/

/-- First branch: `status == "found"`. -/
def isFound (st : String) : Bool := st == "found"

/-- Second branch: `elif status == "not_found"`. -/
def isNotFound (st : String) : Bool := !(st == "found") && (st == "not_found")

/-- Third branch: every other status counts as an error. -/
def isErrorish (st : String) : Bool := !(st == "found") && !(st == "not_found")

/-- Summary counter value, defaulting to 0. -/
def getNat (k : String) (l : List (String × Nat)) : Nat := (dictGet k l).getD 0

/-- Characters after the first occurrence of `pat`, or the input unchanged
by exhaustion; `fuel` is instantiated with the input length. -/
def dropThrough (pat : List Char) : Nat → List Char → List Char
  | _, [] => []
  | 0, s => s
  | fuel + 1, c :: rest =>
    if isPrefixList pat (c :: rest) then (c :: rest).drop pat.length
    else dropThrough pat fuel rest

/-- Modelled from the spec: the path component of a `final_url` (what
follows the host in `scheme://host/path...`); the code itself never
extracts a path, so this exists only to compare the spec's wording with
the code's behaviour. -/
def urlPath (url : String) : String :=
  let cs := url.data
  let afterScheme :=
    if isSubList (String.data "://") cs then dropThrough (String.data "://") cs.length cs
    else cs
  String.mk (afterScheme.dropWhile (fun c => !(c == '/')))

/-- Modelled from the spec: the classifier as the spec words step 3 — the
login/registration indicators are matched against the final_url's path
only, not the whole URL. -/
def analyzeResponsePathOnly (platform : String) (response : HttpResponse) : String :=
  if response.status_code = 404 then "not_found"
  else
    let final_path := strToLower (urlPath response.url)
    if login_indicators.any (fun indicator => strContains final_path indicator) then "not_found"
    else
      let content_lower := strToLower response.text
      if not_found_indicators.any (fun indicator => strContains content_lower indicator) then
        "not_found"
      else if platform = "GitHub" ∧ response.status_code = 200 ∧
          (strContains response.text "\"is_verified\":true" ∨
           strContains response.text "\"login\":\"") then "found"
      else if platform = "Twitter" ∧ response.status_code = 200 ∧
          strContains response.text "data-user-id=" then "found"
      else if response.status_code = 200 then "found"
      else "unknown"

/-- `_analyze_response` with the two platform-specific marker branches
(step 5) removed, for the redundancy comparison. -/
def analyzeResponseNoMarkers (_platform : String) (response : HttpResponse) : String :=
  if response.status_code = 404 then "not_found"
  else
    let final_url := strToLower response.url
    if login_indicators.any (fun indicator => strContains final_url indicator) then "not_found"
    else
      let content_lower := strToLower response.text
      if not_found_indicators.any (fun indicator => strContains content_lower indicator) then
        "not_found"
      else if response.status_code = 200 then "found"
      else "unknown"

/-! ### Lemmas about the string helpers -/

lemma isPrefixList_map (f : Char → Char) :
    ∀ p l : List Char, isPrefixList p l = true → isPrefixList (p.map f) (l.map f) = true
  | [], _, _ => rfl
  | _ :: _, [], h => by simp [isPrefixList] at h
  | a :: as, b :: bs, h => by
    simp only [isPrefixList, Bool.and_eq_true, beq_iff_eq] at h
    simp only [List.map_cons, isPrefixList, Bool.and_eq_true, beq_iff_eq]
    exact ⟨by rw [h.1], isPrefixList_map f as bs h.2⟩

lemma isSubList_map (f : Char → Char) :
    ∀ p l : List Char, isSubList p l = true → isSubList (p.map f) (l.map f) = true
  | p, [], h => by
    simp only [isSubList, List.isEmpty_iff] at h
    subst h; rfl
  | p, c :: rest, h => by
    simp only [isSubList, Bool.or_eq_true] at h ⊢
    rcases h with h | h
    · exact Or.inl (isPrefixList_map f p (c :: rest) h)
    · exact Or.inr (isSubList_map f p rest h)

lemma isSubList_singleton_eq_false (a : Char) :
    ∀ l : List Char, a ∉ l → isSubList [a] l = false
  | [], _ => rfl
  | c :: rest, h => by
    have hac : a ≠ c := fun hac => h (hac ▸ List.mem_cons_self a rest)
    have hrest : a ∉ rest := fun hm => h (List.mem_cons_of_mem c hm)
    simp only [isSubList, isPrefixList, Bool.or_eq_false_iff, Bool.and_eq_false_iff]
    exact ⟨Or.inl (by simpa using hac), isSubList_singleton_eq_false a rest hrest⟩

lemma not_mem_replaceAllAux (a : Char) (pat rep : List Char) (ha : a ∉ rep) :
    ∀ fuel s, a ∉ s → a ∉ replaceAllAux pat rep fuel s := by
  intro fuel
  induction fuel with
  | zero =>
    intro s hs
    cases s with
    | nil => simp [replaceAllAux]
    | cons c rest => simpa [replaceAllAux] using hs
  | succ fuel ih =>
    intro s hs
    cases s with
    | nil => simp [replaceAllAux]
    | cons c rest =>
      by_cases hb : (isPrefixList pat (c :: rest) && !pat.isEmpty) = true
      · rw [replaceAllAux, if_pos hb]
        intro hm
        rcases List.mem_append.mp hm with hm | hm
        · exact ha hm
        · exact ih _ (fun hd => hs (List.drop_subset _ _ hd)) hm
      · rw [replaceAllAux, if_neg hb]
        intro hm
        rcases List.mem_cons.mp hm with hm | hm
        · exact hs (hm ▸ List.mem_cons_self c rest)
        · exact ih rest (fun hd => hs (List.mem_cons_of_mem c hd)) hm

/-! ### Percent-encoding never emits a space -/

lemma char_toNat_lt (c : Char) : c.toNat < 1114112 := by
  have h := c.valid
  rcases h with h | h
  · exact Nat.lt_trans h (by norm_num)
  · exact h.2

lemma utf8Bytes_lt (c : Char) : ∀ b ∈ utf8Bytes c, b < 256 := by
  intro b hb
  have hc := char_toNat_lt c
  have hm64 : ∀ n : Nat, n % 64 < 64 := fun n => Nat.mod_lt _ (by norm_num)
  simp only [utf8Bytes] at hb
  by_cases h1 : c.toNat < 128
  · rw [if_pos h1] at hb
    simp only [List.mem_singleton] at hb
    omega
  · rw [if_neg h1] at hb
    by_cases h2 : c.toNat < 2048
    · rw [if_pos h2] at hb
      have hd : c.toNat / 64 < 32 :=
        (Nat.div_lt_iff_lt_mul (by norm_num)).mpr (by omega)
      have hm := hm64 c.toNat
      simp only [List.mem_cons, List.not_mem_nil, or_false] at hb
      rcases hb with hb | hb <;> omega
    · rw [if_neg h2] at hb
      by_cases h3 : c.toNat < 65536
      · rw [if_pos h3] at hb
        have hd : c.toNat / 4096 < 16 :=
          (Nat.div_lt_iff_lt_mul (by norm_num)).mpr (by omega)
        have hm1 := hm64 (c.toNat / 64)
        have hm2 := hm64 c.toNat
        simp only [List.mem_cons, List.not_mem_nil, or_false] at hb
        rcases hb with hb | hb | hb <;> omega
      · rw [if_neg h3] at hb
        have hd : c.toNat / 262144 < 5 :=
          (Nat.div_lt_iff_lt_mul (by norm_num)).mpr (by omega)
        have hm1 := hm64 (c.toNat / 4096)
        have hm2 := hm64 (c.toNat / 64)
        have hm3 := hm64 c.toNat
        simp only [List.mem_cons, List.not_mem_nil, or_false] at hb
        rcases hb with hb | hb | hb | hb <;> omega

lemma space_not_mem_quoteByte : ∀ b, b < 256 → ' ' ∉ quoteByte b := by decide

lemma space_not_mem_quoteChars :
    ∀ bs : List Nat, (∀ b ∈ bs, b < 256) → ' ' ∉ quoteChars bs
  | [], _ => by simp [quoteChars]
  | b :: bs, h => by
    simp only [quoteChars]
    intro hm
    rcases List.mem_append.mp hm with hm | hm
    · exact space_not_mem_quoteByte b (h b (List.mem_cons_self b bs)) hm
    · exact space_not_mem_quoteChars bs (fun x hx => h x (List.mem_cons_of_mem b hx)) hm

lemma space_not_mem_quote (s : String) : ' ' ∉ (quote s).data := by
  show ' ' ∉ quoteChars (s.data.flatMap utf8Bytes)
  refine space_not_mem_quoteChars _ (fun b hb => ?_)
  rcases List.mem_flatMap.mp hb with ⟨c, _, hbc⟩
  exact utf8Bytes_lt c b hbc

/-- Substituting the percent-encoded identifier into a space-free template
produces a space-free string. -/
lemma pyFormat_quote_no_space (template u : String) (ht : ' ' ∉ template.data) :
    strContains (pyFormat template (quote u)) " " = false := by
  show isSubList (String.data " ") (pyFormat template (quote u)).data = false
  have : (pyFormat template (quote u)).data =
      replaceAllAux (String.data "{username}") (quote u).data template.data.length
        template.data := rfl
  rw [this]
  exact isSubList_singleton_eq_false ' ' _
    (not_mem_replaceAllAux ' ' _ _ (space_not_mem_quote u) _ _ ht)

/-! ### The summary fold -/

lemma countP_three (l : List String) :
    l.countP isFound + l.countP isNotFound + l.countP isErrorish = l.length := by
  induction l with
  | nil => simp
  | cons st rest ih =>
    simp only [List.countP_cons, List.length_cons]
    by_cases h1 : (st == "found") = true <;> by_cases h2 : (st == "not_found") = true <;>
      simp only [isFound, isNotFound, isErrorish, h1, h2, Bool.not_eq_true] at * <;>
      simp_all <;> omega

lemma foldl_summary (sts : List String) (a b c : Nat) :
    sts.foldl (fun s st => bumpKey (summaryKey st) s)
      [("found", a), ("not_found", b), ("errors", c)] =
    [("found", a + sts.countP isFound), ("not_found", b + sts.countP isNotFound),
     ("errors", c + sts.countP isErrorish)] := by
  induction sts generalizing a b c with
  | nil => simp
  | cons st rest ih =>
    rw [List.foldl_cons]
    by_cases h1 : st = "found"
    · have hb : bumpKey (summaryKey st) [("found", a), ("not_found", b), ("errors", c)] =
          [("found", a + 1), ("not_found", b), ("errors", c)] := by
        subst h1; rfl
      rw [hb, ih]
      have c1 : (st :: rest).countP isFound = rest.countP isFound + 1 := by
        subst h1; simp [List.countP_cons, isFound]
      have c2 : (st :: rest).countP isNotFound = rest.countP isNotFound := by
        subst h1; simp [List.countP_cons, isNotFound]
      have c3 : (st :: rest).countP isErrorish = rest.countP isErrorish := by
        subst h1; simp [List.countP_cons, isErrorish]
      rw [c1, c2, c3]
      simp [Nat.add_assoc, Nat.add_comm 1]
    · by_cases h2 : st = "not_found"
      · have hb : bumpKey (summaryKey st) [("found", a), ("not_found", b), ("errors", c)] =
            [("found", a), ("not_found", b + 1), ("errors", c)] := by
          subst h2; rfl
        rw [hb, ih]
        have c1 : (st :: rest).countP isFound = rest.countP isFound := by
          subst h2; simp [List.countP_cons, isFound]
        have c2 : (st :: rest).countP isNotFound = rest.countP isNotFound + 1 := by
          subst h2; simp [List.countP_cons, isNotFound]
        have c3 : (st :: rest).countP isErrorish = rest.countP isErrorish := by
          subst h2; simp [List.countP_cons, isErrorish]
        rw [c1, c2, c3]
        simp [Nat.add_assoc, Nat.add_comm 1]
      · have hb : bumpKey (summaryKey st) [("found", a), ("not_found", b), ("errors", c)] =
            [("found", a), ("not_found", b), ("errors", c + 1)] := by
          have hk : summaryKey st = "errors" := by simp [summaryKey, h1, h2]
          rw [hk]; rfl
        rw [hb, ih]
        have c1 : (st :: rest).countP isFound = rest.countP isFound := by
          simp [List.countP_cons, isFound, h1]
        have c2 : (st :: rest).countP isNotFound = rest.countP isNotFound := by
          simp [List.countP_cons, isNotFound, h2]
        have c3 : (st :: rest).countP isErrorish = rest.countP isErrorish + 1 := by
          simp [List.countP_cons, isErrorish, h1, h2]
        rw [c1, c2, c3]
        simp [Nat.add_assoc, Nat.add_comm 1]

/-- The summary of a run, characterised by the three status counts over
the arrival list. -/
lemma analyze_summary (u : String) (net : String → String → FetchOutcome)
    (o : List (String × String)) :
    (analyze u net o).summary =
      [("found", (o.map (statusOf u net)).countP isFound),
       ("not_found", (o.map (statusOf u net)).countP isNotFound),
       ("errors", (o.map (statusOf u net)).countP isErrorish)] := by
  show (o.map (entryFor u net)).foldl (fun s e => bumpKey (summaryKey e.2.status) s)
      initSummary = _
  rw [List.foldl_map]
  have : (fun (s : List (String × Nat)) (pu : String × String) =>
      bumpKey (summaryKey (entryFor u net pu).2.status) s) =
      (fun s pu => bumpKey (summaryKey (statusOf u net pu)) s) := rfl
  rw [this, ← List.foldl_map (statusOf u net)
    (fun s st => bumpKey (summaryKey st) s)]
  exact (foldl_summary (o.map (statusOf u net)) 0 0 0).trans (by simp)

/-! ### Dict lookup lemmas -/

lemma dictGet_eq_none {β : Type} (p : String) :
    ∀ l : List (String × β), (∀ x ∈ l, x.1 ≠ p) → dictGet p l = none
  | [], _ => rfl
  | (k, v) :: rest, h => by
    have hk : k ≠ p := h (k, v) (List.mem_cons_self _ _)
    simp only [dictGet, if_neg hk]
    exact dictGet_eq_none p rest (fun x hx => h x (List.mem_cons_of_mem _ hx))

lemma dictGet_append_left {β : Type} (p : String) {l₁ : List (String × β)}
    (l₂ : List (String × β)) {v : β} (h : dictGet p l₁ = some v) :
    dictGet p (l₁ ++ l₂) = some v := by
  induction l₁ with
  | nil => simp [dictGet] at h
  | cons x rest ih =>
    obtain ⟨k, w⟩ := x
    by_cases hk : k = p
    · simp only [dictGet, if_pos hk] at h ⊢
      exact h
    · simp only [dictGet, if_neg hk] at h ⊢
      exact ih h

lemma dictGet_append_right {β : Type} (p : String) {l₁ : List (String × β)}
    (l₂ : List (String × β)) (h : dictGet p l₁ = none) :
    dictGet p (l₁ ++ l₂) = dictGet p l₂ := by
  induction l₁ with
  | nil => rfl
  | cons x rest ih =>
    obtain ⟨k, w⟩ := x
    by_cases hk : k = p
    · simp only [dictGet, if_pos hk] at h
      exact Option.noConfusion h
    · simp only [dictGet, if_neg hk] at h ⊢
      exact ih h

lemma dictGet_filter {β : Type} (p : String) (q : β → Bool) :
    ∀ l : List (String × β), (l.map Prod.fst).Nodup →
      dictGet p (l.filter (fun pe => q pe.2)) =
        match dictGet p l with
        | some v => if q v then some v else none
        | none => none
  | [], _ => rfl
  | (k, v) :: rest, h => by
    rw [List.map_cons, List.nodup_cons] at h
    by_cases hk : k = p
    · subst hk
      simp only [dictGet, if_pos rfl]
      by_cases hq : q v = true
      · rw [List.filter_cons_of_pos (by simpa using hq)]
        simp [dictGet, hq]
      · rw [List.filter_cons_of_neg (by simpa using hq)]
        have : dictGet k (rest.filter (fun pe => q pe.2)) = none := by
          refine dictGet_eq_none k _ (fun x hx hxk => ?_)
          exact h.1 (List.mem_map.mpr ⟨x, List.mem_of_mem_filter hx, hxk⟩)
        rw [this]
        simp [hq]
    · have ht := dictGet_filter p q rest h.2
      by_cases hq : q v = true
      · rw [List.filter_cons_of_pos (by simpa using hq)]
        simp only [dictGet, if_neg hk]
        exact ht
      · rw [List.filter_cons_of_neg (by simpa using hq)]
        simp only [dictGet, if_neg hk]
        exact ht

lemma dictGet_perm {β : Type} (p : String) {l₁ l₂ : List (String × β)}
    (hp : l₁.Perm l₂) (h : (l₁.map Prod.fst).Nodup) : dictGet p l₁ = dictGet p l₂ := by
  induction hp with
  | nil => rfl
  | cons x hp ih =>
    obtain ⟨k, v⟩ := x
    rw [List.map_cons, List.nodup_cons] at h
    by_cases hk : k = p
    · simp [dictGet, if_pos hk]
    · simp only [dictGet, if_neg hk]
      exact ih h.2
  | swap x y l =>
    obtain ⟨k₁, v₁⟩ := x
    obtain ⟨k₂, v₂⟩ := y
    rw [List.map_cons, List.map_cons, List.nodup_cons] at h
    have hne : k₂ ≠ k₁ := by
      intro he
      exact h.1 (he ▸ List.mem_cons_self _ _)
    by_cases h1 : k₁ = p <;> by_cases h2 : k₂ = p
    · exact absurd (h1 ▸ h2) hne
    · simp [dictGet, h1, h2]
    · simp [dictGet, h1, h2]
    · simp [dictGet, h1, h2]
  | trans hp₁ hp₂ ih₁ ih₂ =>
    have hmid := ((hp₁.map Prod.fst).nodup_iff).mp h
    exact (ih₁ h).trans (ih₂ hmid)

/-! ### The final status re-sort -/

lemma sortedPlatforms_eq (l : List (String × CheckedEntry)) :
    sortedPlatforms l =
      l.filter (fun pe => pe.2.status == "found") ++
        (l.filter (fun pe => pe.2.status == "not_found") ++
          l.filter (fun pe => pe.2.status == "error")) := by
  simp [sortedPlatforms, List.append_assoc]

/-- Looking a platform up in the re-sorted dict: present with its entry
when its status is one of the three listed strings, dropped otherwise. -/
lemma dictGet_sorted (p : String) (l : List (String × CheckedEntry))
    (h : (l.map Prod.fst).Nodup) :
    dictGet p (sortedPlatforms l) =
      match dictGet p l with
      | some v =>
        if v.status == "found" || v.status == "not_found" || v.status == "error"
        then some v else none
      | none => none := by
  rw [sortedPlatforms_eq]
  have hf1 := dictGet_filter p (fun e => e.status == "found") l h
  have hf2 := dictGet_filter p (fun e => e.status == "not_found") l h
  have hf3 := dictGet_filter p (fun e => e.status == "error") l h
  cases hv : dictGet p l with
  | none =>
    rw [hv] at hf1 hf2 hf3
    simp only at hf1 hf2 hf3
    rw [dictGet_append_right p _ hf1, dictGet_append_right p _ hf2, hf3]
  | some v =>
    rw [hv] at hf1 hf2 hf3
    simp only at hf1 hf2 hf3
    by_cases h1 : (v.status == "found") = true
    · rw [if_pos h1] at hf1
      rw [dictGet_append_left p _ hf1]
      simp [h1]
    · rw [if_neg h1] at hf1
      rw [dictGet_append_right p _ hf1]
      by_cases h2 : (v.status == "not_found") = true
      · rw [if_pos h2] at hf2
        rw [dictGet_append_left p _ hf2]
        simp [h2]
      · rw [if_neg h2] at hf2
        rw [dictGet_append_right p _ hf2, hf3]
        simp [h1, h2]

/-! ### Keys of a run -/

lemma checked_keys (u : String) (net : String → String → FetchOutcome)
    (o : List (String × String)) :
    (o.map (entryFor u net)).map Prod.fst = o.map Prod.fst := by
  rw [List.map_map]
  rfl

lemma platforms_names_nodup : (platforms.map Prod.fst).Nodup := by decide

lemma checked_keys_nodup (u : String) (net : String → String → FetchOutcome)
    {o : List (String × String)} (ho : o.Perm platforms) :
    ((o.map (entryFor u net)).map Prod.fst).Nodup := by
  rw [checked_keys]
  exact ((ho.map Prod.fst).nodup_iff).mpr platforms_names_nodup

/-! ### Shared run-level helper lemmas -/

lemma getNat_summary_vals (a b c : Nat) :
    getNat "found" [("found", a), ("not_found", b), ("errors", c)] = a ∧
    getNat "not_found" [("found", a), ("not_found", b), ("errors", c)] = b ∧
    getNat "errors" [("found", a), ("not_found", b), ("errors", c)] = c := by
  refine ⟨rfl, ?_, ?_⟩ <;> simp [getNat, dictGet]

/-- Every run whose arrival order is a permutation of the registry has
summary counters summing to 21. -/
lemma analyze_counts_total (u : String) (net : String → String → FetchOutcome)
    {arrival : List (String × String)} (h : arrival.Perm platforms) :
    getNat "found" (analyze u net arrival).summary +
      getNat "not_found" (analyze u net arrival).summary +
      getNat "errors" (analyze u net arrival).summary = 21 := by
  rw [analyze_summary]
  obtain ⟨g1, g2, g3⟩ := getNat_summary_vals
    ((arrival.map (statusOf u net)).countP isFound)
    ((arrival.map (statusOf u net)).countP isNotFound)
    ((arrival.map (statusOf u net)).countP isErrorish)
  rw [g1, g2, g3, countP_three, List.length_map, h.length_eq]
  rfl

lemma isErrorish_error_msg (msg : String) : isErrorish ("error: " ++ msg) = true := by
  have h1 : ("error: " ++ msg) ≠ "found" := by
    intro h
    have hl := congrArg String.length h
    rw [String.length_append] at hl
    have h7 : ("error: " : String).length = 7 := rfl
    have h5 : ("found" : String).length = 5 := rfl
    omega
  have h2 : ("error: " ++ msg) ≠ "not_found" := by
    intro h
    have hd := congrArg String.data h
    rw [String.data_append] at hd
    have he : ("error: " : String).data =
        'e' :: 'r' :: 'r' :: 'o' :: 'r' :: ':' :: ' ' :: [] := rfl
    have hn : ("not_found" : String).data =
        'n' :: 'o' :: 't' :: '_' :: 'f' :: 'o' :: 'u' :: 'n' :: 'd' :: [] := rfl
    rw [he, hn] at hd
    simp at hd
  simp only [isErrorish, Bool.and_eq_true, Bool.not_eq_true', beq_eq_false_iff_ne, ne_eq]
  exact ⟨h1, h2⟩

/-! ### The claims -/

/-- C1: the claim says the results of `analyze` always contain exactly one
`platforms_checked` entry per registry platform (21 of them) for every
combination of verdicts.  The code violates this: the final re-sort keeps
only the statuses `found`, `not_found` and `error`, so on a run where every
fetch times out, `checks_performed` is 21 but `platforms_checked` is empty. -/
theorem c1_sort_drops_non_terminal_outcomes :
    platforms.length = 21 ∧
    (analyze "alice" (fun _ _ => FetchOutcome.timedOut) platforms).checks_performed = 21 ∧
    getNat "errors" (analyze "alice" (fun _ _ => FetchOutcome.timedOut) platforms).summary = 21 ∧
    (analyze "alice" (fun _ _ => FetchOutcome.timedOut) platforms).platforms_checked.length = 0 ∧
    dictGet "GitHub"
      (analyze "alice" (fun _ _ => FetchOutcome.timedOut) platforms).platforms_checked = none := by
  decide

/-- C2: the classifier's rules are evaluated in the fixed order with
earlier-rule precedence: status 404 yields `not_found` regardless of the
body, and a status-200 response whose body contains "user not found"
yields `not_found` (body-phrase rule), not `found` (default-positive). -/
theorem c2_rule_order_precedence :
    (∀ (platform : String) (response : HttpResponse),
        response.status_code = 404 → analyzeResponse platform response = "not_found") ∧
    (∀ (platform : String) (response : HttpResponse),
        response.status_code = 200 →
        strContains response.text "user not found" = true →
        analyzeResponse platform response = "not_found") := by
  constructor
  · intro platform response h
    simp [analyzeResponse, h]
  · intro platform response h htext
    have hphrase : strContains (strToLower response.text) "user not found" = true := by
      have hm := isSubList_map Char.toLower (String.data "user not found")
        response.text.data htext
      have heq : (String.data "user not found").map Char.toLower =
          String.data "user not found" := by decide
      rw [heq] at hm
      exact hm
    have hany : (not_found_indicators.any fun indicator =>
        strContains (strToLower response.text) indicator) = true :=
      List.any_eq_true.mpr ⟨"user not found", by decide, hphrase⟩
    by_cases hl : (login_indicators.any fun indicator =>
        strContains (strToLower response.url) indicator) = true <;>
      simp [analyzeResponse, h, hl, hany]

/-- C2 witness: the two precedence cases at concrete responses. -/
theorem c2_rule_order_precedence_witness :
    analyzeResponse "GitHub"
      ⟨404, "https://github.com/x", "this page not found somewhere"⟩ = "not_found" ∧
    analyzeResponse "GitHub"
      ⟨200, "https://github.com/x", "sorry, user not found here"⟩ = "not_found" :=
  ⟨c2_rule_order_precedence.1 "GitHub" _ rfl,
   c2_rule_order_precedence.2 "GitHub" _ rfl (by decide)⟩

/-- C3: for every run (any network behaviour, any completion order), the
three summary counters sum to the registry size, which also equals
`checks_performed`: each task's outcome bumps exactly one counter. -/
theorem c3_summary_counters_partition :
    ∀ (username : String) (net : String → String → FetchOutcome)
      (arrival : List (String × String)), arrival.Perm platforms →
      (analyze username net arrival).checks_performed = platforms.length ∧
      platforms.length = 21 ∧
      getNat "found" (analyze username net arrival).summary +
        getNat "not_found" (analyze username net arrival).summary +
        getNat "errors" (analyze username net arrival).summary = platforms.length := by
  intro username net arrival h
  exact ⟨rfl, rfl, analyze_counts_total username net h⟩

/-- C3 witness: a run where every platform returns a connection error. -/
theorem c3_summary_counters_partition_witness :
    (analyze "alice" (fun _ _ => FetchOutcome.connectionError) platforms).checks_performed =
      platforms.length ∧
    platforms.length = 21 ∧
    getNat "found" (analyze "alice" (fun _ _ => FetchOutcome.connectionError) platforms).summary +
      getNat "not_found"
        (analyze "alice" (fun _ _ => FetchOutcome.connectionError) platforms).summary +
      getNat "errors"
        (analyze "alice" (fun _ _ => FetchOutcome.connectionError) platforms).summary =
      platforms.length :=
  c3_summary_counters_partition "alice" (fun _ _ => FetchOutcome.connectionError) platforms
    (List.Perm.refl platforms)

/-- C4 counterexample: the claim says the `url` field recorded in each
outcome entry also contains no literal space for identifier "john doe".
It does: `analyze` records `template.format(username=username)` with the
raw, unquoted identifier, so the GitHub entry's recorded `url` contains a
space. -/
theorem c4_recorded_url_keeps_raw_space :
    (dictGet "GitHub" (analyze "john doe"
        (fun _ url => FetchOutcome.ok ⟨200, url, ""⟩ 5) platforms).platforms_checked).map
      (fun e => strContains e.url " ") = some true := by
  decide

/-- C4 (amended): the identifier is percent-encoded before substitution
into the *fetched* URL, which therefore contains no literal space for any
identifier; the `url` field recorded in each outcome entry substitutes the
raw identifier instead and for "john doe" is the space-containing
`https://github.com/john doe`. -/
theorem c4_fetched_url_percent_encoded :
    (∀ (username : String) (pu : String × String), pu ∈ platforms →
        strContains (pyFormat pu.2 (quote username)) " " = false) ∧
    (dictGet "GitHub" (analyze "john doe"
        (fun _ url => FetchOutcome.ok ⟨200, url, ""⟩ 5) platforms).platforms_checked).map
      (fun e => e.url) = some "https://github.com/john doe" := by
  constructor
  · intro username pu hm
    have hall : ∀ q ∈ platforms, ' ' ∉ q.2.data := by decide
    exact pyFormat_quote_no_space pu.2 username (hall pu hm)
  · decide

/-- C4 witness: the fetched GitHub URL for "john doe" is space-free. -/
theorem c4_fetched_url_percent_encoded_witness :
    strContains (pyFormat "https://github.com/{username}" (quote "john doe")) " " = false :=
  c4_fetched_url_percent_encoded.1 "john doe" ("GitHub", "https://github.com/{username}")
    (by decide)

/-- C5: the per-request timeout is 10, and every network-layer failure of
a single platform's task is converted to a status inside
`_check_single_platform` — a timeout yields "timeout", a connection
failure "connection_error", any other exception "error: <message>" — and
a run whose tasks fail arbitrarily still completes with all 21 outcomes
counted. -/
theorem c5_network_failures_contained :
    timeout = 10 ∧
    (∀ platform url_template username,
        checkSinglePlatform platform url_template username
          (fun _ _ => FetchOutcome.timedOut) = ("timeout", 0)) ∧
    (∀ platform url_template username,
        checkSinglePlatform platform url_template username
          (fun _ _ => FetchOutcome.connectionError) = ("connection_error", 0)) ∧
    (∀ platform url_template username msg,
        checkSinglePlatform platform url_template username
          (fun _ _ => FetchOutcome.otherError msg) = ("error: " ++ msg, 0)) ∧
    (∀ (username : String) (net : String → String → FetchOutcome)
        (arrival : List (String × String)), arrival.Perm platforms →
        getNat "found" (analyze username net arrival).summary +
          getNat "not_found" (analyze username net arrival).summary +
          getNat "errors" (analyze username net arrival).summary = 21) := by
  refine ⟨rfl, fun _ _ _ => rfl, fun _ _ _ => rfl, fun _ _ _ _ => rfl, ?_⟩
  intro username net arrival h
  exact analyze_counts_total username net h

/-- C5 witness: the failure conversions and run completion at concrete inputs. -/
theorem c5_network_failures_contained_witness :
    checkSinglePlatform "GitHub" "https://github.com/{username}" "alice"
      (fun _ _ => FetchOutcome.timedOut) = ("timeout", 0) ∧
    checkSinglePlatform "GitHub" "https://github.com/{username}" "alice"
      (fun _ _ => FetchOutcome.connectionError) = ("connection_error", 0) ∧
    checkSinglePlatform "GitHub" "https://github.com/{username}" "alice"
      (fun _ _ => FetchOutcome.otherError "boom") = ("error: boom", 0) ∧
    getNat "found" (analyze "alice" (fun _ _ => FetchOutcome.timedOut) platforms).summary +
      getNat "not_found" (analyze "alice" (fun _ _ => FetchOutcome.timedOut) platforms).summary +
      getNat "errors" (analyze "alice" (fun _ _ => FetchOutcome.timedOut) platforms).summary =
      21 :=
  ⟨c5_network_failures_contained.2.1 "GitHub" "https://github.com/{username}" "alice",
   c5_network_failures_contained.2.2.1 "GitHub" "https://github.com/{username}" "alice",
   c5_network_failures_contained.2.2.2.1 "GitHub" "https://github.com/{username}" "alice" "boom",
   c5_network_failures_contained.2.2.2.2 "alice" (fun _ _ => FetchOutcome.timedOut) platforms
     (List.Perm.refl platforms)⟩

/-- C6: a status-200 response matching no earlier rule is classified
"found" (default-positive policy), and a response matching no rule whose
status is neither 404 nor 200 is classified "unknown". -/
theorem c6_default_positive_else_unknown :
    (∀ (platform : String) (response : HttpResponse),
        response.status_code = 200 →
        (login_indicators.any fun indicator =>
          strContains (strToLower response.url) indicator) = false →
        (not_found_indicators.any fun indicator =>
          strContains (strToLower response.text) indicator) = false →
        analyzeResponse platform response = "found") ∧
    (∀ (platform : String) (response : HttpResponse),
        response.status_code ≠ 404 → response.status_code ≠ 200 →
        (login_indicators.any fun indicator =>
          strContains (strToLower response.url) indicator) = false →
        (not_found_indicators.any fun indicator =>
          strContains (strToLower response.text) indicator) = false →
        analyzeResponse platform response = "unknown") := by
  constructor
  · intro platform response h200 hl hp
    simp [analyzeResponse, h200, hl, hp]
  · intro platform response h404 h200 hl hp
    simp [analyzeResponse, h404, h200, hl, hp]

/-- C6 witness: a bare 200 yields "found"; a bare 500 yields "unknown". -/
theorem c6_default_positive_else_unknown_witness :
    analyzeResponse "Reddit" ⟨200, "https://example.com/bob", "hello"⟩ = "found" ∧
    analyzeResponse "Reddit" ⟨500, "https://example.com/bob", "hello"⟩ = "unknown" :=
  ⟨c6_default_positive_else_unknown.1 "Reddit" _ rfl (by decide) (by decide),
   c6_default_positive_else_unknown.2 "Reddit" _ (by decide) (by decide) (by decide) (by decide)⟩

/-- C7 counterexample: the claim says the login-indicator match is against
the final_url's *path*.  It is against the whole URL: a 200 response whose
final_url is `https://auth.example.com/profile` — whose path `/profile`
contains no indicator — is classified "not_found" by the code, while the
path-matching classifier the spec describes returns "found". -/
theorem c7_match_is_whole_url_not_path :
    analyzeResponse "GitHub" ⟨200, "https://auth.example.com/profile", ""⟩ = "not_found" ∧
    analyzeResponsePathOnly "GitHub" ⟨200, "https://auth.example.com/profile", ""⟩ = "found" ∧
    (login_indicators.any fun indicator =>
      strContains (strToLower (urlPath "https://auth.example.com/profile")) indicator) =
      false := by
  decide

/-- C7 (amended): for every response whose status is not 404 and whose
lowercased final_url contains one of the login/registration indicators as
a substring — the match is against the entire final_url, not only its
path — the classifier returns "not_found"; in particular a status-200
response redirected to `/login` is "not_found", not "found". -/
theorem c7_login_indicator_means_not_found :
    ∀ (platform : String) (response : HttpResponse),
      response.status_code ≠ 404 →
      (login_indicators.any fun indicator =>
        strContains (strToLower response.url) indicator) = true →
      analyzeResponse platform response = "not_found" := by
  intro platform response h404 hl
  simp [analyzeResponse, h404, hl]

/-- C7 witness: a 200 response whose final_url ends in `/login`. -/
theorem c7_login_indicator_means_not_found_witness :
    analyzeResponse "Instagram" ⟨200, "https://instagram.com/accounts/login", ""⟩ =
      "not_found" :=
  c7_login_indicator_means_not_found "Instagram" _ (by decide) (by decide)

/-- C8: for a fixed network behaviour, every completion order of the 21
tasks (hence every worker-pool width, which can only influence that
order) yields the same summary counters and the same per-platform entry
in the returned results. -/
theorem c8_arrival_order_independent :
    ∀ (username : String) (net : String → String → FetchOutcome)
      (o₁ o₂ : List (String × String)), o₁.Perm platforms → o₂.Perm platforms →
      (analyze username net o₁).summary = (analyze username net o₂).summary ∧
      ∀ platform : String,
        dictGet platform (analyze username net o₁).platforms_checked =
          dictGet platform (analyze username net o₂).platforms_checked := by
  intro username net o₁ o₂ h₁ h₂
  have h12 : o₁.Perm o₂ := h₁.trans h₂.symm
  have hs12 := h12.map (statusOf username net)
  constructor
  · rw [analyze_summary, analyze_summary, hs12.countP_eq isFound,
      hs12.countP_eq isNotFound, hs12.countP_eq isErrorish]
  · intro platform
    show dictGet platform (sortedPlatforms (o₁.map (entryFor username net))) =
      dictGet platform (sortedPlatforms (o₂.map (entryFor username net)))
    rw [dictGet_sorted platform _ (checked_keys_nodup username net h₁),
      dictGet_sorted platform _ (checked_keys_nodup username net h₂),
      dictGet_perm platform (h12.map (entryFor username net))
        (checked_keys_nodup username net h₁)]

/-- C8 witness: registry order versus reversed completion order agree. -/
theorem c8_arrival_order_independent_witness :
    (analyze "alice" (fun _ _ => FetchOutcome.timedOut) platforms.reverse).summary =
      (analyze "alice" (fun _ _ => FetchOutcome.timedOut) platforms).summary ∧
    dictGet "GitHub"
      (analyze "alice" (fun _ _ => FetchOutcome.timedOut) platforms.reverse).platforms_checked =
      dictGet "GitHub"
        (analyze "alice" (fun _ _ => FetchOutcome.timedOut) platforms).platforms_checked := by
  have h := c8_arrival_order_independent "alice" (fun _ _ => FetchOutcome.timedOut)
    platforms.reverse platforms (List.reverse_perm platforms) (List.Perm.refl platforms)
  exact ⟨h.1, h.2 "GitHub"⟩

/-- C9: the platform-specific positive-marker checks are redundant — the
classifier without them is extensionally equal to the classifier with
them, because any response reaching step 5 with status 200 is classified
"found" by the default-positive rule anyway. -/
theorem c9_marker_checks_redundant :
    ∀ (platform : String) (response : HttpResponse),
      analyzeResponse platform response = analyzeResponseNoMarkers platform response := by
  intro platform response
  by_cases h404 : response.status_code = 404
  · simp [analyzeResponse, analyzeResponseNoMarkers, h404]
  · by_cases hl : (login_indicators.any fun indicator =>
        strContains (strToLower response.url) indicator) = true
    · simp [analyzeResponse, analyzeResponseNoMarkers, h404, hl]
    · by_cases hp : (not_found_indicators.any fun indicator =>
          strContains (strToLower response.text) indicator) = true
      · simp [analyzeResponse, analyzeResponseNoMarkers, h404, hl, hp]
      · by_cases h200 : response.status_code = 200
        · simp [analyzeResponse, analyzeResponseNoMarkers, h404, hl, hp, h200]
        · simp [analyzeResponse, analyzeResponseNoMarkers, h404, hl, hp, h200]

/-- C10: the summary dict has exactly the keys found/not_found/errors, and
every outcome whose status is neither "found" nor "not_found" — timeout,
connection_error, unknown and every "error: <message>" status alike —
increments the single errors counter. -/
theorem c10_single_errors_counter :
    ∀ (username : String) (net : String → String → FetchOutcome)
      (arrival : List (String × String)),
      (analyze username net arrival).summary.map Prod.fst =
        ["found", "not_found", "errors"] ∧
      getNat "errors" (analyze username net arrival).summary =
        (arrival.map (statusOf username net)).countP isErrorish ∧
      isErrorish "timeout" = true ∧
      isErrorish "connection_error" = true ∧
      isErrorish "unknown" = true ∧
      (∀ msg, isErrorish ("error: " ++ msg) = true) := by
  intro username net arrival
  rw [analyze_summary]
  exact ⟨rfl,
    (getNat_summary_vals ((arrival.map (statusOf username net)).countP isFound)
      ((arrival.map (statusOf username net)).countP isNotFound)
      ((arrival.map (statusOf username net)).countP isErrorish)).2.2,
    rfl, rfl, rfl, isErrorish_error_msg⟩

end IPhoenix
